import Mathlib

/-!
Verification of the `IsoBuilder` job runner
(`src/spark/runners/iso_build.py` of laniakea-spark).

The Python module is shallowly embedded below: dictionaries become
association lists over strings, the mutable instance attributes become an
explicit `BuilderState`, and the external sandbox provider
(`spark.utils.schroot`) becomes an oracle record `SandboxEnv` whose fields
supply the results of each provider call, together with an event trace
recording every sandbox interaction.
-/

namespace Spark

/-- The single-quote character (codepoint 39). -/
def squote : Char := Char.ofNat 39

/-- The double-quote character (codepoint 34). -/
def dquote : Char := Char.ofNat 34

/-- The backslash character (codepoint 92). -/
def bslash : Char := Char.ofNat 92

/-- One-character string holding a single quote. -/
def squoteS : String := String.mk [squote]

/-- One-character string holding a double quote. -/
def dquoteS : String := String.mk [dquote]

/-- Characters CPython `shlex.quote` treats as safe: its ASCII-only
unsafe-character regex finds nothing, i.e. every character is an ASCII
letter, digit, underscore or one of `@ % + = : , . slash dash`. -/
def shlexSafe (c : Char) : Bool :=
  c.isAlpha || c.isDigit || c = '_' || c = '@' || c = '%' || c = '+' ||
  c = '=' || c = ':' || c = ',' || c = '.' || c = '/' || c = '-'

/-- CPython string replace of each single quote by the five-character
escape sequence quote, double-quote, quote, double-quote, quote. -/
def replaceSQuote (s : String) : String :=
  String.mk (s.data.foldr
    (fun c acc =>
      if c = squote then squote :: dquote :: squote :: dquote :: squote :: acc
      else c :: acc) [])

/-- CPython `shlex.quote`: empty (falsy) strings become a pair of single
quotes; all-safe strings are returned unchanged; otherwise the string is
wrapped in single quotes with embedded single quotes escaped. -/
def shlexQuote (s : String) : String :=
  if s.isEmpty then squoteS ++ squoteS
  else if s.data.all shlexSafe then s
  else squoteS ++ replaceSQuote s ++ squoteS

/-- `shlex.quote` as applied to the result of `dict.get`, which may be
`None`.  The CPython `quote` function begins by returning a pair of single
quotes whenever `not s` holds, and `not None` is truthy, so a missing
value also yields the two-quote string. -/
def shlexQuoteOpt : Option String → String
  | none => squoteS ++ squoteS
  | some s => shlexQuote s

/-- A Python dict with string keys and string values, as used for the
`data` mapping of a job. -/
abbrev Dict := List (String × String)

/-- `d.get(k)`: the value at the first matching key, if any. -/
def dget (d : Dict) (k : String) : Option String :=
  (d.find? (fun p => p.fst == k)).map (fun p => p.snd)

/-- Python truthiness of an optional string: `None` and `""` are falsy. -/
def truthyOptStr : Option String → Bool
  | none => false
  | some s => !s.isEmpty

/-- Python truthiness of an optional dict: `None` and `{}` are falsy. -/
def truthyOptDict : Option Dict → Bool
  | none => false
  | some d => !d.isEmpty

/-- The job descriptor, as read by this module: the `architecture` and
`data` keys are the only ones the code reads; a top-level `suite` key may
be present but is never read by `set_job`. -/
structure Job where
  suite : Option String
  architecture : Option String
  data : Option Dict
deriving DecidableEq

/-- The mutable attributes of an `IsoBuilder` instance.  `none` in the
outer option means the attribute has never been assigned (as after
`__init__`, which sets nothing). -/
structure BuilderState where
  workspace : Option String
  jobData : Option (Option Dict)
  chrootName : Option String
deriving DecidableEq

/-- State of a freshly constructed `IsoBuilder()`: no attributes set. -/
def initState : BuilderState := ⟨none, none, none⟩

/-- `IsoBuilder.set_job(self, job, workspace)`.  Mirrors the source: it
first assigns `self._workspace` and `self._job_data`, then validates; only
on full success is `self._chroot_name` assigned.  Returns the updated
state together with the boolean result. -/
def set_job (st : BuilderState) (job : Job) (workspace : String) :
    BuilderState × Bool :=
  let st1 : BuilderState := ⟨some workspace, some job.data, st.chrootName⟩
  if !truthyOptDict job.data then (st1, false)
  else
    let d := job.data.getD []
    let suite_name := dget d "suite"
    let arch := job.architecture
    if !truthyOptStr suite_name then (st1, false)
    else if !truthyOptStr arch then (st1, false)
    else
      (⟨some workspace, some job.data,
        some (suite_name.getD "" ++ "-" ++ arch.getD "")⟩, true)

/-- The argv of the first install call: `apt-get install -y git
ca-certificates`. -/
def aptInstallGit : List String :=
  ["apt-get", "install", "-y", "git", "ca-certificates"]

/-- The argv of the second install call: `apt-get install -y live-build`. -/
def aptInstallLb : List String :=
  ["apt-get", "install", "-y", "live-build"]

/-- The command script built by `IsoBuilder.run` (lines 63-89 of the
source): a fresh list, appended to one command at a time, exactly in
source order. -/
def buildCommands (d : Dict) (wsdir resultsDir : String) : List String :=
  let commands : List String := []
  let commands := commands ++ ["export DEBIAN_FRONTEND=noninteractive"]
  let commands := commands ++ ["cd " ++ wsdir]
  let commands := commands ++
    ["git clone --depth=2 " ++ shlexQuoteOpt (dget d "liveBuildGit") ++
     " " ++ wsdir ++ "/lb"]
  let commands := commands ++ ["cd ./lb"]
  let flavor := dget d "flavor"
  let commands := commands ++
    (match flavor with
     | some f =>
       if f.isEmpty then []
       else ["export FLAVOR=" ++ dquoteS ++ shlexQuote f ++ dquoteS]
     | none => [])
  let commands := commands ++ ["lb config"]
  let commands := commands ++ ["lb build"]
  let commands := commands ++
    ["b2sum *.iso *.contents *.zsync *.packages > checksums.b2sum"]
  let commands := commands ++
    ["sha256sum *.iso *.contents *.zsync *.packages > checksums.sha256sum"]
  let commands := commands ++ ["mv *.iso " ++ resultsDir ++ "/"]
  let commands := commands ++ ["mv -f *.zsync " ++ resultsDir ++ "/"]
  let commands := commands ++ ["mv -f *.contents " ++ resultsDir ++ "/"]
  let commands := commands ++ ["mv -f *.files " ++ resultsDir ++ "/"]
  let commands := commands ++ ["mv -f *.packages " ++ resultsDir ++ "/"]
  let commands := commands ++ ["mv -f *.b2sum " ++ resultsDir ++ "/"]
  let commands := commands ++ ["mv -f *.sha256sum " ++ resultsDir ++ "/"]
  commands

/-- Faults propagating out of `run`: infrastructure errors raised by the
sandbox provider, and Python `AttributeError` for a `run` on an instance
whose attributes were never set. -/
inductive Fault where
  | provider : String → Fault
  | attrError : Fault
deriving DecidableEq

/-- Observable sandbox interactions of one `run` call. -/
inductive Ev where
  | acquire : Ev
  | release : Ev
  | upgrade : Ev
  | runLogged : List String → String → Ev
  | makeScript : List String → Ev
  | copyIn : String → String → Ev
deriving DecidableEq

/-- Modelled from the spec: the sandbox provider interface of §6
(`spark.utils.schroot`, whose code is not part of this repository slice).
Each field supplies the outcome of the corresponding provider call, in
the order `run` makes them: scoped acquisition (yielding work and results
directories), the best-effort upgrade (its status is produced but ignored
by the runner), the two logged installs, script materialization (yielding
the script name), the copy into the sandbox, and the logged script
execution.  An `error` value models a fault raised by the provider. -/
structure SandboxEnv where
  acquire : Except Fault (String × String)
  upgrade : Except Fault Nat
  installGitRes : Except Fault Nat
  installLbRes : Except Fault Nat
  materialize : Except Fault String
  copyRes : Except Fault Unit
  execRes : Except Fault Nat

/-- Lines 91-101 of the source: materialize the command file, copy it
into the chroot, execute it with `sh -e` as root; a nonzero execution
status yields `False` (the source re-checks the same status once more
after the inner `with` closes). -/
def scriptPhase (d : Dict) (env : SandboxEnv) (wsdir resultsDir : String) :
    Except Fault Bool × List Ev :=
  let cmds := buildCommands d wsdir resultsDir
  match env.materialize with
  | .error f => (.error f, [Ev.makeScript cmds])
  | .ok shf =>
    match env.copyRes with
    | .error f => (.error f, [Ev.makeScript cmds, Ev.copyIn shf shf])
    | .ok _ =>
      match env.execRes with
      | .error f =>
        (.error f,
         [Ev.makeScript cmds, Ev.copyIn shf shf,
          Ev.runLogged ["sh", "-e", shf] "root"])
      | .ok r =>
        ((if r ≠ 0 then .ok false
          else if r ≠ 0 then .ok false
          else .ok true),
         [Ev.makeScript cmds, Ev.copyIn shf shf,
          Ev.runLogged ["sh", "-e", shf] "root"])

/-- Lines 54-59: the `live-build` install; nonzero status returns
`False`, success continues with the script phase. -/
def installLbStep (d : Dict) (env : SandboxEnv) (wsdir resultsDir : String) :
    Except Fault Bool × List Ev :=
  match env.installLbRes with
  | .error f => (.error f, [Ev.runLogged aptInstallLb "root"])
  | .ok r =>
    if r ≠ 0 then (.ok false, [Ev.runLogged aptInstallLb "root"])
    else
      let next := scriptPhase d env wsdir resultsDir
      (next.1, Ev.runLogged aptInstallLb "root" :: next.2)

/-- Lines 47-52: the `git`/`ca-certificates` install; nonzero status
returns `False`, success continues with the `live-build` install. -/
def installGitStep (d : Dict) (env : SandboxEnv) (wsdir resultsDir : String) :
    Except Fault Bool × List Ev :=
  match env.installGitRes with
  | .error f => (.error f, [Ev.runLogged aptInstallGit "root"])
  | .ok r =>
    if r ≠ 0 then (.ok false, [Ev.runLogged aptInstallGit "root"])
    else
      let next := installLbStep d env wsdir resultsDir
      (next.1, Ev.runLogged aptInstallGit "root" :: next.2)

/-- The body of the `with spark_schroot(...)` block: the best-effort
upgrade (line 45, status discarded) followed by the install chain. -/
def runBody (d : Dict) (env : SandboxEnv) (wsdir resultsDir : String) :
    Except Fault Bool × List Ev :=
  match env.upgrade with
  | .error f => (.error f, [Ev.upgrade])
  | .ok _ =>
    let next := installGitStep d env wsdir resultsDir
    (next.1, Ev.upgrade :: next.2)

/-- `IsoBuilder.run(self, jlog)`.  Reading the unset `_chroot_name` or
`_job_data` attribute, or calling `.get` on a `_job_data` that is `None`,
raises `AttributeError` before any sandbox interaction.  Otherwise the
scoped acquisition either faults (no sandbox was obtained, nothing to
release) or yields the directory pair, and — modelled from the §6 text of the spec, its
scoped-acquisition guarantee for `spark_schroot`, a context manager whose
code is outside this repository slice — the release runs on every exit
path out of the block body, normal or faulting. -/
def run (st : BuilderState) (env : SandboxEnv) :
    Except Fault Bool × List Ev :=
  match st.chrootName, st.jobData with
  | some _, some (some d) =>
    match env.acquire with
    | .error f => (.error f, [])
    | .ok p =>
      let body := runBody d env p.1 p.2
      (body.1, Ev.acquire :: body.2 ++ [Ev.release])
  | _, _ => (.error Fault.attrError, [])

/-- `hasMarker p cs` is true when the character list `cs` begins with the
marker `p`. -/
def hasMarker : List Char → List Char → Bool
  | [], _ => true
  | _ :: _, [] => false
  | p :: ps, c :: cs => p == c && hasMarker ps cs

/-- `markerClash p cs` is true when matching the marker `p` against `cs`
fails on an actual character mismatch within `cs` (so no extension of
`cs` can begin with `p`). -/
def markerClash : List Char → List Char → Bool
  | [], _ => false
  | _ :: _, [] => false
  | p :: ps, c :: cs => if p == c then markerClash ps cs else true

/-- The characters of `export FLAVOR=`. -/
def flavorMarker : List Char := "export FLAVOR=".data

/-- A command line is a flavor-export line when it starts with
`export FLAVOR=`. -/
def isFlavorLine (s : String) : Bool := hasMarker flavorMarker s.data

/-- A command line is a force-guarded move when it starts with `mv -f `. -/
def isForcedMove (s : String) : Bool := hasMarker "mv -f ".data s.data

theorem data_append (a b : String) : (a ++ b).data = a.data ++ b.data := rfl

theorem strAppend_assoc (a b c : String) : a ++ b ++ c = a ++ (b ++ c) := by
  apply String.ext
  simp [data_append, List.append_assoc]

theorem hasMarker_mono (p : List Char) :
    ∀ s t : List Char, hasMarker p s = true → hasMarker p (s ++ t) = true := by
  induction p with
  | nil => intro s t _; rfl
  | cons x xs ih =>
    intro s t h
    cases s with
    | nil => simp [hasMarker] at h
    | cons c cs =>
      simp only [hasMarker, Bool.and_eq_true] at h
      simp only [List.cons_append, hasMarker, Bool.and_eq_true]
      exact ⟨h.1, ih cs t h.2⟩

theorem hasMarker_of_clash (p : List Char) :
    ∀ s t : List Char, markerClash p s = true → hasMarker p (s ++ t) = false := by
  induction p with
  | nil => intro s t h; simp [markerClash] at h
  | cons x xs ih =>
    intro s t h
    cases s with
    | nil => simp [markerClash] at h
    | cons c cs =>
      simp only [markerClash] at h
      simp only [List.cons_append, hasMarker]
      by_cases hc : (x == c) = true
      · rw [hc, Bool.true_and]
        rw [if_pos hc] at h
        exact ih cs t h
      · rw [Bool.eq_false_iff.mpr hc, Bool.false_and]

/-- If a concrete head already clashes with the flavor marker, no
completion of the line is a flavor-export line. -/
theorem isFlavorLine_append_false (s t : String)
    (h : markerClash flavorMarker s.data = true) :
    isFlavorLine (s ++ t) = false := by
  unfold isFlavorLine
  rw [data_append]
  exact hasMarker_of_clash _ _ _ h

/-- A line extending `export FLAVOR=` is a flavor-export line. -/
theorem isFlavorLine_append_true (t : String) :
    isFlavorLine ("export FLAVOR=" ++ t) = true := by
  unfold isFlavorLine
  rw [data_append]
  exact hasMarker_mono _ _ _ (by decide)

/-- Shell quoting mode while scanning a word. -/
inductive QMode where
  | norm : QMode
  | insq : QMode
  | indq : QMode

/-- Modelled from the spec: POSIX shell quote removal over one word (the
shell itself is outside this repository; this device interprets the text
to the right of `FLAVOR=` in the export command, assuming the word holds
no expansion characters).  Unquoted backslash escapes the next character;
inside single quotes everything is literal; inside double quotes a
backslash is literal unless it precedes a double quote or backslash. -/
def shWordEvalAux : QMode → List Char → List Char
  | _, [] => []
  | QMode.norm, c :: cs =>
    if c = squote then shWordEvalAux QMode.insq cs
    else if c = dquote then shWordEvalAux QMode.indq cs
    else if c = bslash then
      match cs with
      | [] => []
      | e :: es => e :: shWordEvalAux QMode.norm es
    else c :: shWordEvalAux QMode.norm cs
  | QMode.insq, c :: cs =>
    if c = squote then shWordEvalAux QMode.norm cs
    else c :: shWordEvalAux QMode.insq cs
  | QMode.indq, c :: cs =>
    if c = dquote then shWordEvalAux QMode.norm cs
    else if c = bslash then
      match cs with
      | [] => [bslash]
      | e :: es =>
        if e = dquote || e = bslash then e :: shWordEvalAux QMode.indq es
        else bslash :: e :: shWordEvalAux QMode.indq es
    else c :: shWordEvalAux QMode.indq cs

/-- The value a shell word denotes after quote removal. -/
def shWordEval (s : String) : String :=
  String.mk (shWordEvalAux QMode.norm s.data)

/-- A job whose `data` mapping is non-empty but holds no `suite` key. -/
def jobMissingSuite : Job :=
  ⟨none, some "amd64", some [("liveBuildGit", "git://example/repo")]⟩

/-- A job shaped like the §3 data model of the spec: `suite` at top level and
`liveBuildGit` inside `data`. -/
def jobTopSuite : Job :=
  ⟨some "stable", some "amd64", some [("liveBuildGit", "git://example/repo")]⟩

/-- A job with `suite` inside `data`, as the code actually requires. -/
def jobInDataSuite : Job :=
  ⟨none, some "amd64",
   some [("suite", "stable"), ("liveBuildGit", "git://example/repo")]⟩

/-- A valid job whose `data` lacks `liveBuildGit`. -/
def jobNoGit : Job := ⟨none, some "amd64", some [("suite", "stable")]⟩

/-- A sandbox oracle where every provider call succeeds with status 0. -/
def envOk : SandboxEnv :=
  ⟨.ok ("/ws", "/res"), .ok 0, .ok 0, .ok 0, .ok "/tmp/build.sh", .ok (), .ok 0⟩

/-- A sandbox oracle where the `git`/`ca-certificates` install reports
status 1 and everything else would succeed. -/
def envGitFail : SandboxEnv :=
  ⟨.ok ("/ws", "/res"), .ok 0, .ok 1, .ok 0, .ok "/tmp/build.sh", .ok (), .ok 0⟩

/-- A sandbox oracle where the best-effort upgrade reports status 100 and
everything else succeeds. -/
def envUpgradeFail : SandboxEnv :=
  ⟨.ok ("/ws", "/res"), .ok 100, .ok 0, .ok 0, .ok "/tmp/build.sh", .ok (), .ok 0⟩

/-- C6: `configure` returns true exactly when the job has a truthy `data`
mapping, a truthy `suite` inside `data`, and a truthy `architecture` on
the job; on success the instance holds the workspace, the `data` of the job,
and `chrootName = suite ++ "-" ++ architecture`. -/
theorem c6_configure (job : Job) (ws : String) :
    ((set_job initState job ws).2 = true ↔
      (truthyOptDict job.data = true ∧
       truthyOptStr (dget (job.data.getD []) "suite") = true ∧
       truthyOptStr job.architecture = true)) ∧
    ((set_job initState job ws).2 = true →
      (set_job initState job ws).1 =
        ⟨some ws, some job.data,
         some ((dget (job.data.getD []) "suite").getD "" ++ "-" ++
               job.architecture.getD "")⟩) := by
  unfold set_job
  by_cases h1 : truthyOptDict job.data = true
  · by_cases h2 : truthyOptStr (dget (job.data.getD []) "suite") = true
    · by_cases h3 : truthyOptStr job.architecture = true
      · simp [h1, h2, h3]
      · rw [Bool.not_eq_true] at h3
        simp [h1, h2, h3]
    · rw [Bool.not_eq_true] at h2
      simp [h1, h2]
  · rw [Bool.not_eq_true] at h1
    simp [h1]

/-- C6 witness: for `suite="stable"` (inside `data`) and
`architecture="amd64"`, `configure` succeeds and sets
`chrootName = "stable-amd64"`. -/
theorem c6_configure_witness :
    (set_job initState jobInDataSuite "wsp").2 = true ∧
    (set_job initState jobInDataSuite "wsp").1.chrootName =
      some "stable-amd64" := by
  have h := c6_configure jobInDataSuite "wsp"
  have h2 : (set_job initState jobInDataSuite "wsp").2 = true :=
    h.1.mpr (by decide)
  refine ⟨h2, ?_⟩
  rw [h.2 h2]
  decide

/-- C2 counterexample: a descriptor whose `data` lacks `suite` makes
`configure` return false, yet the instance has observably mutated: the
workspace handle and the `data` mapping of the job were stored. -/
theorem c2_counterexample :
    (set_job initState jobMissingSuite "wsp").2 = false ∧
    (set_job initState jobMissingSuite "wsp").1.workspace = some "wsp" ∧
    (set_job initState jobMissingSuite "wsp").1.jobData =
      some (some [("liveBuildGit", "git://example/repo")]) := by
  refine ⟨by decide, by decide, by decide⟩

/-- C2 (amended): on every failed `configure` no `chrootName` is stored
(it is left unchanged), but the workspace handle and the `data` of the job
value are assigned unconditionally before validation. -/
theorem c2_amended (st : BuilderState) (job : Job) (ws : String)
    (h : (set_job st job ws).2 = false) :
    (set_job st job ws).1.chrootName = st.chrootName ∧
    (set_job st job ws).1.workspace = some ws ∧
    (set_job st job ws).1.jobData = some job.data := by
  unfold set_job at h ⊢
  by_cases h1 : truthyOptDict job.data = true
  · by_cases h2 : truthyOptStr (dget (job.data.getD []) "suite") = true
    · by_cases h3 : truthyOptStr job.architecture = true
      · simp [h1, h2, h3] at h
      · rw [Bool.not_eq_true] at h3
        simp [h1, h2, h3]
    · rw [Bool.not_eq_true] at h2
      simp [h1, h2]
  · rw [Bool.not_eq_true] at h1
    simp [h1]

/-- C2 witness: the amended statement at the concrete failing
descriptor. -/
theorem c2_amended_witness :
    (set_job initState jobMissingSuite "wsp").1.chrootName = none ∧
    (set_job initState jobMissingSuite "wsp").1.workspace = some "wsp" ∧
    (set_job initState jobMissingSuite "wsp").1.jobData =
      some jobMissingSuite.data := by
  have h := c2_amended initState jobMissingSuite "wsp" (by decide)
  exact ⟨h.1, h.2.1, h.2.2⟩

/-- C9 counterexample: a descriptor shaped exactly as the §3 data
model describes — non-empty top-level `suite` and `architecture`, and a
`data` mapping holding `liveBuildGit` — is rejected by `configure`,
because the code looks for `suite` inside `data`. -/
theorem c9_counterexample :
    (set_job initState jobTopSuite "wsp").2 = false := by decide

/-- C9 (amended): a descriptor with a non-empty `suite` inside its `data`
mapping, a non-empty top-level `architecture`, and `liveBuildGit` in
`data` is accepted by `configure`. -/
theorem c9_amended (job : Job) (ws : String) (d : Dict) (s a g : String)
    (hd : job.data = some d) (hs : dget d "suite" = some s)
    (hse : s.isEmpty = false) (ha : job.architecture = some a)
    (hae : a.isEmpty = false) (hg : dget d "liveBuildGit" = some g) :
    (set_job initState job ws).2 = true := by
  have hdne : d.isEmpty = false := by
    cases d with
    | nil => simp [dget] at hs
    | cons p ps => rfl
  unfold set_job
  rw [hd]
  simp [truthyOptDict, truthyOptStr, hdne, hs, hse, ha, hae]

/-- C9 witness: the amended statement at a concrete in-`data`-suite
descriptor. -/
theorem c9_amended_witness :
    (set_job initState jobInDataSuite "wsp").2 = true :=
  c9_amended jobInDataSuite "wsp"
    [("suite", "stable"), ("liveBuildGit", "git://example/repo")]
    "stable" "amd64" "git://example/repo"
    rfl (by decide) (by decide) rfl (by decide) (by decide)

/-- C1: for a job whose `data` holds `liveBuildGit`, the command script
is exactly this ordered sequence: the DEBIAN_FRONTEND export, `cd` to the
work directory, the depth-2 shell-escaped `git clone` into `workDir/lb`,
`cd ./lb`, optionally the flavor export, `lb config`, `lb build`, the
`b2sum` and `sha256sum` manifests, and the seven artifact moves into the
results directory, in that order — and nothing else. -/
theorem c1_script (d : Dict) (w r url : String)
    (h : dget d "liveBuildGit" = some url) :
    buildCommands d w r =
      ["export DEBIAN_FRONTEND=noninteractive",
       "cd " ++ w,
       "git clone --depth=2 " ++ shlexQuote url ++ " " ++ w ++ "/lb",
       "cd ./lb"] ++
      (if truthyOptStr (dget d "flavor") = true
       then ["export FLAVOR=" ++ dquoteS ++
             shlexQuote ((dget d "flavor").getD "") ++ dquoteS]
       else []) ++
      ["lb config", "lb build",
       "b2sum *.iso *.contents *.zsync *.packages > checksums.b2sum",
       "sha256sum *.iso *.contents *.zsync *.packages > checksums.sha256sum",
       "mv *.iso " ++ r ++ "/",
       "mv -f *.zsync " ++ r ++ "/",
       "mv -f *.contents " ++ r ++ "/",
       "mv -f *.files " ++ r ++ "/",
       "mv -f *.packages " ++ r ++ "/",
       "mv -f *.b2sum " ++ r ++ "/",
       "mv -f *.sha256sum " ++ r ++ "/"] := by
  unfold buildCommands
  rw [h]
  cases hf : dget d "flavor" with
  | none => simp [truthyOptStr, shlexQuoteOpt]
  | some f =>
    by_cases hfe : f.isEmpty = true
    · simp [truthyOptStr, shlexQuoteOpt, hfe]
    · rw [Bool.not_eq_true] at hfe
      simp [truthyOptStr, shlexQuoteOpt, hfe]

/-- The `data` mapping used for the C1 witness. -/
def dC1 : Dict := [("liveBuildGit", "git://example/repo"), ("flavor", "minimal")]

/-- C1 witness: the script generated for a concrete job with a flavor. -/
theorem c1_script_witness :
    buildCommands dC1 "/ws" "/res" =
      ["export DEBIAN_FRONTEND=noninteractive",
       "cd /ws",
       "git clone --depth=2 git://example/repo /ws/lb",
       "cd ./lb",
       "export FLAVOR=" ++ dquoteS ++ "minimal" ++ dquoteS,
       "lb config", "lb build",
       "b2sum *.iso *.contents *.zsync *.packages > checksums.b2sum",
       "sha256sum *.iso *.contents *.zsync *.packages > checksums.sha256sum",
       "mv *.iso /res/",
       "mv -f *.zsync /res/",
       "mv -f *.contents /res/",
       "mv -f *.files /res/",
       "mv -f *.packages /res/",
       "mv -f *.b2sum /res/",
       "mv -f *.sha256sum /res/"] := by
  rw [c1_script dC1 "/ws" "/res" "git://example/repo" (by decide)]
  decide

/-- C10 counterexample: for a validated job whose `data` lacks
`liveBuildGit`, `configure` returns true, and the subsequent `run` raises
no fault at all — with an all-succeeding sandbox it completes and returns
true, because CPython `shlex.quote` maps the missing (`None`) value to
a pair of single quotes instead of raising; the clone command gets an empty
quoted URL. -/
theorem c10_counterexample :
    (set_job initState jobNoGit "wsp").2 = true ∧
    (run (set_job initState jobNoGit "wsp").1 envOk).1 = .ok true ∧
    (buildCommands [("suite", "stable")] "/ws" "/res")[2]? =
      some ("git clone --depth=2 " ++ squoteS ++ squoteS ++ " /ws/lb") := by
  refine ⟨by decide, by rfl, by decide⟩

/-- C10 (amended): `configure` performs no validation of `liveBuildGit`
— a validated job lacking it is accepted — and the subsequent script
assembly does not fault: the clone command is built with the missing URL
rendered as the empty quoted string (two single quotes). -/
theorem c10_amended (job : Job) (ws : String) (d : Dict) (s a w r : String)
    (hd : job.data = some d) (hs : dget d "suite" = some s)
    (hse : s.isEmpty = false) (ha : job.architecture = some a)
    (hae : a.isEmpty = false) (hg : dget d "liveBuildGit" = none) :
    (set_job initState job ws).2 = true ∧
    (buildCommands d w r)[2]? =
      some ("git clone --depth=2 " ++ squoteS ++ squoteS ++ " " ++ w ++ "/lb") := by
  constructor
  · have hdne : d.isEmpty = false := by
      cases d with
      | nil => simp [dget] at hs
      | cons p ps => rfl
    unfold set_job
    rw [hd]
    simp [truthyOptDict, truthyOptStr, hdne, hs, hse, ha, hae]
  · unfold buildCommands
    rw [hg]
    cases hf : dget d "flavor" with
    | none => simp [shlexQuoteOpt, strAppend_assoc]
    | some f =>
      by_cases hfe : f.isEmpty = true
      · simp [shlexQuoteOpt, hfe, strAppend_assoc]
      · rw [Bool.not_eq_true] at hfe
        simp [shlexQuoteOpt, hfe, strAppend_assoc]

/-- C10 witness: the amended statement at the concrete job lacking
`liveBuildGit`. -/
theorem c10_amended_witness :
    (set_job initState jobNoGit "wsp").2 = true ∧
    (buildCommands [("suite", "stable")] "/ws" "/res")[2]? =
      some ("git clone --depth=2 " ++ squoteS ++ squoteS ++ " " ++ "/ws" ++ "/lb") :=
  c10_amended jobNoGit "wsp" [("suite", "stable")] "stable" "amd64" "/ws" "/res"
    rfl (by decide) (by decide) rfl (by decide) (by decide)

/-- The command list flattened, for a `data` mapping without `flavor`. -/
theorem buildCommands_flat_none (d : Dict) (w r : String)
    (hf : dget d "flavor" = none) :
    buildCommands d w r =
      ["export DEBIAN_FRONTEND=noninteractive",
       "cd " ++ w,
       "git clone --depth=2 " ++ shlexQuoteOpt (dget d "liveBuildGit") ++
         " " ++ w ++ "/lb",
       "cd ./lb",
       "lb config", "lb build",
       "b2sum *.iso *.contents *.zsync *.packages > checksums.b2sum",
       "sha256sum *.iso *.contents *.zsync *.packages > checksums.sha256sum",
       "mv *.iso " ++ r ++ "/",
       "mv -f *.zsync " ++ r ++ "/",
       "mv -f *.contents " ++ r ++ "/",
       "mv -f *.files " ++ r ++ "/",
       "mv -f *.packages " ++ r ++ "/",
       "mv -f *.b2sum " ++ r ++ "/",
       "mv -f *.sha256sum " ++ r ++ "/"] := by
  simp only [buildCommands]
  rw [hf]
  simp

/-- The command list flattened, for an empty (falsy) `flavor`. -/
theorem buildCommands_flat_empty (d : Dict) (w r f : String)
    (hf : dget d "flavor" = some f) (hfe : f.isEmpty = true) :
    buildCommands d w r =
      ["export DEBIAN_FRONTEND=noninteractive",
       "cd " ++ w,
       "git clone --depth=2 " ++ shlexQuoteOpt (dget d "liveBuildGit") ++
         " " ++ w ++ "/lb",
       "cd ./lb",
       "lb config", "lb build",
       "b2sum *.iso *.contents *.zsync *.packages > checksums.b2sum",
       "sha256sum *.iso *.contents *.zsync *.packages > checksums.sha256sum",
       "mv *.iso " ++ r ++ "/",
       "mv -f *.zsync " ++ r ++ "/",
       "mv -f *.contents " ++ r ++ "/",
       "mv -f *.files " ++ r ++ "/",
       "mv -f *.packages " ++ r ++ "/",
       "mv -f *.b2sum " ++ r ++ "/",
       "mv -f *.sha256sum " ++ r ++ "/"] := by
  simp only [buildCommands]
  rw [hf]
  simp [hfe]

/-- The command list flattened, for a non-empty `flavor`. -/
theorem buildCommands_flat_flavor (d : Dict) (w r f : String)
    (hf : dget d "flavor" = some f) (hfe : f.isEmpty = false) :
    buildCommands d w r =
      ["export DEBIAN_FRONTEND=noninteractive",
       "cd " ++ w,
       "git clone --depth=2 " ++ shlexQuoteOpt (dget d "liveBuildGit") ++
         " " ++ w ++ "/lb",
       "cd ./lb",
       "export FLAVOR=" ++ dquoteS ++ shlexQuote f ++ dquoteS,
       "lb config", "lb build",
       "b2sum *.iso *.contents *.zsync *.packages > checksums.b2sum",
       "sha256sum *.iso *.contents *.zsync *.packages > checksums.sha256sum",
       "mv *.iso " ++ r ++ "/",
       "mv -f *.zsync " ++ r ++ "/",
       "mv -f *.contents " ++ r ++ "/",
       "mv -f *.files " ++ r ++ "/",
       "mv -f *.packages " ++ r ++ "/",
       "mv -f *.b2sum " ++ r ++ "/",
       "mv -f *.sha256sum " ++ r ++ "/"] := by
  simp only [buildCommands]
  rw [hf]
  simp [hfe]

/-- The `data` mapping for the C7 counterexample: a flavor holding a
space. -/
def dFlavor : Dict := [("liveBuildGit", "git://example/repo"), ("flavor", "a b")]

/-- C7 counterexample: for the flavor `a b` the unique flavor line of
the script is `export FLAVOR=` followed by the single-quoted flavor
wrapped in double quotes; the word to the right of `FLAVOR=` is not the
shell-escaped flavor value (it is additionally wrapped in double quotes),
and the value the shell assigns after quote removal is the flavor still
wrapped in single quotes, which differs from the flavor itself — escaping
does not preserve the value for arbitrary characters. -/
theorem c7_counterexample :
    (buildCommands dFlavor "/ws" "/res").filter isFlavorLine =
      ["export FLAVOR=" ++ dquoteS ++ squoteS ++ "a b" ++ squoteS ++ dquoteS] ∧
    shWordEval (dquoteS ++ squoteS ++ "a b" ++ squoteS ++ dquoteS) =
      squoteS ++ "a b" ++ squoteS ∧
    squoteS ++ "a b" ++ squoteS ≠ "a b" ∧
    dquoteS ++ squoteS ++ "a b" ++ squoteS ++ dquoteS ≠ shlexQuote "a b" := by
  refine ⟨by decide, by decide, by decide, by decide⟩

/-- C7 (amended): the script contains no flavor-export line when
`flavor` is absent or empty; when `flavor` is a non-empty string it
contains exactly one, of the exact form `export FLAVOR="<shlex-quoted
flavor>"` — the quoted value wrapped in additional double quotes, so the
assigned value equals the flavor only when shlex quoting leaves it
unchanged, not for arbitrary characters. -/
theorem c7_amended (d : Dict) (w r : String) (f : String) :
    (truthyOptStr (dget d "flavor") = false →
      (buildCommands d w r).filter isFlavorLine = []) ∧
    (dget d "flavor" = some f → f.isEmpty = false →
      (buildCommands d w r).filter isFlavorLine =
        ["export FLAVOR=" ++ dquoteS ++ shlexQuote f ++ dquoteS]) := by
  have e1 : isFlavorLine "export DEBIAN_FRONTEND=noninteractive" = false := by
    decide
  have e2 : ∀ t : String, isFlavorLine ("cd " ++ t) = false :=
    fun t => isFlavorLine_append_false "cd " t (by decide)
  have e3 : ∀ t : String, isFlavorLine ("git clone --depth=2 " ++ t) = false :=
    fun t => isFlavorLine_append_false "git clone --depth=2 " t (by decide)
  have e4 : isFlavorLine "cd ./lb" = false := by decide
  have e5 : isFlavorLine "lb config" = false := by decide
  have e6 : isFlavorLine "lb build" = false := by decide
  have e7 : isFlavorLine
      "b2sum *.iso *.contents *.zsync *.packages > checksums.b2sum" = false := by
    decide
  have e8 : isFlavorLine
      "sha256sum *.iso *.contents *.zsync *.packages > checksums.sha256sum" =
      false := by decide
  have e9 : ∀ t : String, isFlavorLine ("mv *.iso " ++ t) = false :=
    fun t => isFlavorLine_append_false "mv *.iso " t (by decide)
  have e10 : ∀ t : String, isFlavorLine ("mv -f *.zsync " ++ t) = false :=
    fun t => isFlavorLine_append_false "mv -f *.zsync " t (by decide)
  have e11 : ∀ t : String, isFlavorLine ("mv -f *.contents " ++ t) = false :=
    fun t => isFlavorLine_append_false "mv -f *.contents " t (by decide)
  have e12 : ∀ t : String, isFlavorLine ("mv -f *.files " ++ t) = false :=
    fun t => isFlavorLine_append_false "mv -f *.files " t (by decide)
  have e13 : ∀ t : String, isFlavorLine ("mv -f *.packages " ++ t) = false :=
    fun t => isFlavorLine_append_false "mv -f *.packages " t (by decide)
  have e14 : ∀ t : String, isFlavorLine ("mv -f *.b2sum " ++ t) = false :=
    fun t => isFlavorLine_append_false "mv -f *.b2sum " t (by decide)
  have e15 : ∀ t : String, isFlavorLine ("mv -f *.sha256sum " ++ t) = false :=
    fun t => isFlavorLine_append_false "mv -f *.sha256sum " t (by decide)
  constructor
  · intro hfl
    cases hf : dget d "flavor" with
    | none =>
      rw [buildCommands_flat_none d w r hf]
      simp only [strAppend_assoc]
      simp [List.filter_cons, e1, e2, e3, e4, e5, e6, e7, e8, e9, e10, e11,
            e12, e13, e14, e15]
    | some f0 =>
      rw [hf] at hfl
      have hfe : f0.isEmpty = true := by
        simpa [truthyOptStr] using hfl
      rw [buildCommands_flat_empty d w r f0 hf hfe]
      simp only [strAppend_assoc]
      simp [List.filter_cons, e1, e2, e3, e4, e5, e6, e7, e8, e9, e10, e11,
            e12, e13, e14, e15]
  · intro hf hfe
    have eT : isFlavorLine
        ("export FLAVOR=" ++ (dquoteS ++ (shlexQuote f ++ dquoteS))) = true :=
      isFlavorLine_append_true (dquoteS ++ (shlexQuote f ++ dquoteS))
    rw [buildCommands_flat_flavor d w r f hf hfe]
    simp only [strAppend_assoc]
    simp [List.filter_cons, e1, e2, e3, e4, e5, e6, e7, e8, e9, e10, e11,
          e12, e13, e14, e15, eT]

/-- C7 witness: the amended statement at a flavorless mapping and at the
the `flavor="minimal"` example of the spec. -/
theorem c7_amended_witness :
    ((buildCommands [("liveBuildGit", "g")] "/ws" "/res").filter
      isFlavorLine = []) ∧
    ((buildCommands dC1 "/ws" "/res").filter isFlavorLine =
      ["export FLAVOR=" ++ dquoteS ++ shlexQuote "minimal" ++ dquoteS]) :=
  ⟨(c7_amended [("liveBuildGit", "g")] "/ws" "/res" "minimal").1 (by decide),
   (c7_amended dC1 "/ws" "/res" "minimal").2 (by decide) (by decide)⟩

/-- A line extending a text that carries the `mv -f ` marker is a
force-guarded move. -/
theorem isForcedMove_append_true (s t : String)
    (h : hasMarker "mv -f ".data s.data = true) :
    isForcedMove (s ++ t) = true := by
  unfold isForcedMove
  rw [data_append]
  exact hasMarker_mono _ _ _ h

/-- A line whose concrete head clashes with `mv -f ` is not a
force-guarded move, whatever follows. -/
theorem isForcedMove_append_false (s t : String)
    (h : markerClash "mv -f ".data s.data = true) :
    isForcedMove (s ++ t) = false := by
  unfold isForcedMove
  rw [data_append]
  exact hasMarker_of_clash _ _ _ h

/-- C8: every generated command script ends with the seven artifact
moves, in order `.iso`, `.zsync`, `.contents`, `.files`, `.packages`,
`.b2sum`, `.sha256sum`; the six non-`.iso` moves carry the `mv -f` force
flag (the guard that keeps a missing artifact class from aborting the
pipeline), while the `.iso` move carries no such guard. -/
theorem c8_moves (d : Dict) (w r : String) :
    (∃ pre : List String,
      buildCommands d w r = pre ++
        ["mv *.iso " ++ r ++ "/",
         "mv -f *.zsync " ++ r ++ "/",
         "mv -f *.contents " ++ r ++ "/",
         "mv -f *.files " ++ r ++ "/",
         "mv -f *.packages " ++ r ++ "/",
         "mv -f *.b2sum " ++ r ++ "/",
         "mv -f *.sha256sum " ++ r ++ "/"]) ∧
    isForcedMove ("mv *.iso " ++ (r ++ "/")) = false ∧
    isForcedMove ("mv -f *.zsync " ++ (r ++ "/")) = true ∧
    isForcedMove ("mv -f *.contents " ++ (r ++ "/")) = true ∧
    isForcedMove ("mv -f *.files " ++ (r ++ "/")) = true ∧
    isForcedMove ("mv -f *.packages " ++ (r ++ "/")) = true ∧
    isForcedMove ("mv -f *.b2sum " ++ (r ++ "/")) = true ∧
    isForcedMove ("mv -f *.sha256sum " ++ (r ++ "/")) = true := by
  refine ⟨?_, isForcedMove_append_false "mv *.iso " (r ++ "/") (by decide),
          isForcedMove_append_true "mv -f *.zsync " (r ++ "/") (by decide),
          isForcedMove_append_true "mv -f *.contents " (r ++ "/") (by decide),
          isForcedMove_append_true "mv -f *.files " (r ++ "/") (by decide),
          isForcedMove_append_true "mv -f *.packages " (r ++ "/") (by decide),
          isForcedMove_append_true "mv -f *.b2sum " (r ++ "/") (by decide),
          isForcedMove_append_true "mv -f *.sha256sum " (r ++ "/") (by decide)⟩
  cases hf : dget d "flavor" with
  | none =>
    refine ⟨["export DEBIAN_FRONTEND=noninteractive",
             "cd " ++ w,
             "git clone --depth=2 " ++ shlexQuoteOpt (dget d "liveBuildGit") ++
               " " ++ w ++ "/lb",
             "cd ./lb", "lb config", "lb build",
             "b2sum *.iso *.contents *.zsync *.packages > checksums.b2sum",
             "sha256sum *.iso *.contents *.zsync *.packages > checksums.sha256sum"],
            ?_⟩
    rw [buildCommands_flat_none d w r hf]
    simp
  | some f =>
    by_cases hfe : f.isEmpty = true
    · refine ⟨["export DEBIAN_FRONTEND=noninteractive",
               "cd " ++ w,
               "git clone --depth=2 " ++ shlexQuoteOpt (dget d "liveBuildGit") ++
                 " " ++ w ++ "/lb",
               "cd ./lb", "lb config", "lb build",
               "b2sum *.iso *.contents *.zsync *.packages > checksums.b2sum",
               "sha256sum *.iso *.contents *.zsync *.packages > checksums.sha256sum"],
              ?_⟩
      rw [buildCommands_flat_empty d w r f hf hfe]
      simp
    · rw [Bool.not_eq_true] at hfe
      refine ⟨["export DEBIAN_FRONTEND=noninteractive",
               "cd " ++ w,
               "git clone --depth=2 " ++ shlexQuoteOpt (dget d "liveBuildGit") ++
                 " " ++ w ++ "/lb",
               "cd ./lb",
               "export FLAVOR=" ++ dquoteS ++ shlexQuote f ++ dquoteS,
               "lb config", "lb build",
               "b2sum *.iso *.contents *.zsync *.packages > checksums.b2sum",
               "sha256sum *.iso *.contents *.zsync *.packages > checksums.sha256sum"],
              ?_⟩
      rw [buildCommands_flat_flavor d w r f hf hfe]
      simp

theorem release_not_mem_scriptPhase (d : Dict) (env : SandboxEnv)
    (w r : String) : Ev.release ∉ (scriptPhase d env w r).2 := by
  cases hm : env.materialize with
  | error f => simp [scriptPhase, hm]
  | ok shf =>
    cases hc : env.copyRes with
    | error f => simp [scriptPhase, hm, hc]
    | ok u =>
      cases he : env.execRes with
      | error f => simp [scriptPhase, hm, hc, he]
      | ok rr => simp [scriptPhase, hm, hc, he]

theorem release_not_mem_installLb (d : Dict) (env : SandboxEnv)
    (w r : String) : Ev.release ∉ (installLbStep d env w r).2 := by
  cases hl : env.installLbRes with
  | error f => simp [installLbStep, hl]
  | ok rr =>
    by_cases hr : rr = 0
    · subst hr
      simp [installLbStep, hl, release_not_mem_scriptPhase d env w r]
    · simp [installLbStep, hl, hr]

theorem release_not_mem_installGit (d : Dict) (env : SandboxEnv)
    (w r : String) : Ev.release ∉ (installGitStep d env w r).2 := by
  cases hg : env.installGitRes with
  | error f => simp [installGitStep, hg]
  | ok rr =>
    by_cases hr : rr = 0
    · subst hr
      simp [installGitStep, hg, release_not_mem_installLb d env w r]
    · simp [installGitStep, hg, hr]

theorem release_not_mem_runBody (d : Dict) (env : SandboxEnv)
    (w r : String) : Ev.release ∉ (runBody d env w r).2 := by
  cases hu : env.upgrade with
  | error f => simp [runBody, hu]
  | ok u => simp [runBody, hu, release_not_mem_installGit d env w r]

/-- C4: on a configured instance, whenever the scoped sandbox acquisition
succeeds, the release event appears exactly once in the trace of `run`,
on every exit path — normal return, early false return after a failed
install or script execution, and faults propagating from the provider. -/
theorem c4_release_once (st : BuilderState) (env : SandboxEnv)
    (cn : String) (d : Dict) (p : String × String)
    (hcn : st.chrootName = some cn) (hjd : st.jobData = some (some d))
    (hacq : env.acquire = .ok p) :
    ((run st env).2).count Ev.release = 1 := by
  unfold run
  rw [hcn, hjd, hacq]
  simp only [List.count_cons, List.count_append]
  rw [List.count_eq_zero.mpr (release_not_mem_runBody d env p.1 p.2)]
  decide

/-- C4 witness: the count is one for a concrete configured instance and
an oracle whose first install fails. -/
theorem c4_release_once_witness :
    ((run (set_job initState jobInDataSuite "wsp").1 envGitFail).2).count
      Ev.release = 1 :=
  c4_release_once (set_job initState jobInDataSuite "wsp").1 envGitFail
    "stable-amd64"
    [("suite", "stable"), ("liveBuildGit", "git://example/repo")]
    ("/ws", "/res") rfl rfl rfl

/-- C3: if the `git`/`ca-certificates` install reports a nonzero status,
`run` returns false and the trace shows no further sandbox interaction
after that install — no live-build install, no script materialization,
no copy into the sandbox, no script execution; only the guaranteed
release follows. -/
theorem c3_abort (st : BuilderState) (env : SandboxEnv)
    (cn : String) (d : Dict) (w r : String) (u rc : Nat)
    (hcn : st.chrootName = some cn) (hjd : st.jobData = some (some d))
    (hacq : env.acquire = .ok (w, r)) (hupg : env.upgrade = .ok u)
    (h1 : env.installGitRes = .ok rc) (hrc : rc ≠ 0) :
    run st env =
      (.ok false,
       [Ev.acquire, Ev.upgrade, Ev.runLogged aptInstallGit "root",
        Ev.release]) := by
  unfold run
  rw [hcn, hjd, hacq]
  unfold runBody installGitStep
  rw [hupg, h1]
  simp [hrc]

/-- C3 witness: the aborting trace at a concrete instance and oracle. -/
theorem c3_abort_witness :
    run (set_job initState jobInDataSuite "wsp").1 envGitFail =
      (.ok false,
       [Ev.acquire, Ev.upgrade, Ev.runLogged aptInstallGit "root",
        Ev.release]) :=
  c3_abort (set_job initState jobInDataSuite "wsp").1 envGitFail
    "stable-amd64"
    [("suite", "stable"), ("liveBuildGit", "git://example/repo")]
    "/ws" "/res" 0 1 rfl rfl rfl rfl rfl (by decide)

/-- C5: if both installs and the final script execution report status
zero, `run` returns true, whatever exit status the best-effort
package-upgrade step reported — its result is discarded. -/
theorem c5_success (st : BuilderState) (env : SandboxEnv)
    (cn : String) (d : Dict) (w r shf : String) (u : Nat)
    (hcn : st.chrootName = some cn) (hjd : st.jobData = some (some d))
    (hacq : env.acquire = .ok (w, r)) (hupg : env.upgrade = .ok u)
    (h1 : env.installGitRes = .ok 0) (h2 : env.installLbRes = .ok 0)
    (hm : env.materialize = .ok shf) (hcp : env.copyRes = .ok ())
    (h3 : env.execRes = .ok 0) :
    (run st env).1 = .ok true := by
  unfold run
  rw [hcn, hjd, hacq]
  unfold runBody installGitStep installLbStep scriptPhase
  rw [hupg, h1, h2, hm, hcp, h3]
  simp

/-- C5 witness: `run` returns true at a concrete configured instance
even though the upgrade step reported the nonzero status 100. -/
theorem c5_success_witness :
    (run (set_job initState jobInDataSuite "wsp").1 envUpgradeFail).1 =
      .ok true :=
  c5_success (set_job initState jobInDataSuite "wsp").1 envUpgradeFail
    "stable-amd64"
    [("suite", "stable"), ("liveBuildGit", "git://example/repo")]
    "/ws" "/res" "/tmp/build.sh" 100 rfl rfl rfl rfl rfl rfl rfl rfl rfl

end Spark
